import Mathlib

/-!
Verification of the Exercise_Recommendation workout-plan engine.

The development shallow-embeds the Python sources `Exercise.py` (the
`WorkoutPlanner` core) and `app.py` (the batch challenge loop) into Lean:

* Python floats are modelled as exact rationals (`ℚ`); `int(x)` truncation
  toward zero is `pyInt`.
* The global `random` module is modelled as explicit state (`RngState`)
  threaded through every operation; `random.seed(key)` replaces the state by
  a pure hash of the key string, `random.random()` / `random.sample` /
  `random.choices` are deterministic functions of the state.
* `datetime` dates are modelled by their ordinal: days since 2025-01-01
  (an integer, negative dates allowed), with real Gregorian calendar
  rendering for the strftime outputs.
-/

/-! ## Numeric model -/

/-- Python `int(x)` applied to a float: truncation toward zero. -/
def pyInt (q : ℚ) : ℤ := if 0 ≤ q then ⌊q⌋ else -⌊-q⌋

/-! ## Random-source model

CPython's global Mersenne Twister is modelled by a single natural-number
state and an LCG step; `random.seed(str)` hashes the string into a state.
All draws are pure functions of the state, which is exactly the property
the code relies on (seeding makes subsequent draws reproducible). -/

abbrev RngState : Type := ℕ

def lcgNext (g : RngState) : RngState :=
  (6364136223846793005 * g + 1442695040888963407) % (2 ^ 64)

/-- Model of `random.seed(key)` for a string key: a deterministic hash. -/
def pySeed (s : String) : RngState :=
  s.foldl (fun h c => (h * 31 + c.toNat) % (2 ^ 64)) 5381

/-- Model of `random.random()`: a uniform draw in `[0,1)` as a 53-bit
fraction, together with the advanced state. -/
def pyRandom (g : RngState) : ℚ × RngState :=
  let g' := lcgNext g
  (((g' % 2 ^ 53 : ℕ) : ℚ) / (2 ^ 53 : ℚ), g')

/-- Model of `random.sample(pool, k)` (sampling without replacement):
repeatedly pick an index below the remaining pool size and remove the
element.  Returns the chosen elements in order plus the advanced state. -/
def pySample {α : Type} : ℕ → List α → RngState → List α × RngState
  | 0, _, g => ([], g)
  | _ + 1, [], g => ([], g)
  | k + 1, p :: rest, g =>
    let g' := lcgNext g
    let i : ℕ := g' % (rest.length + 1)
    let x := (p :: rest).get ⟨i, by exact Nat.mod_lt _ (Nat.succ_pos _)⟩
    let r := pySample k ((p :: rest).eraseIdx i) g'
    (x :: r.1, r.2)

/-! ## Calendar model

A date is its ordinal `ord : ℤ` = days since 2025-01-01 (which was a
Wednesday, day 20089 since the Unix epoch). -/

/-- Gregorian civil date (year, month, day) from days since 1970-01-01. -/
def civilFromDays (z0 : ℤ) : ℤ × ℤ × ℤ :=
  let z := z0 + 719468
  let era := z.fdiv 146097
  let doe := z - era * 146097
  let yoe := (doe - doe.fdiv 1460 + doe.fdiv 36524 - doe.fdiv 146096).fdiv 365
  let y := yoe + era * 400
  let doy := doe - (365 * yoe + yoe.fdiv 4 - yoe.fdiv 100)
  let mp := (5 * doy + 2).fdiv 153
  let d := doy - (153 * mp + 2).fdiv 5 + 1
  let m := mp + (if mp < 10 then 3 else -9)
  (y + (if m ≤ 2 then 1 else 0), m, d)

def natPad (w : ℕ) (n : ℤ) : String :=
  let s := toString n.toNat
  String.mk (List.replicate (w - s.length) '0') ++ s

/-- Rendering `date.strftime("%Y%m%d")` for the date with ordinal `ord`. -/
def yyyymmdd (ord : ℤ) : String :=
  let c := civilFromDays (ord + 20089)
  natPad 4 c.1 ++ natPad 2 c.2.1 ++ natPad 2 c.2.2

/-- Rendering `date.strftime("%Y-%m-%d")` for the date with ordinal `ord`. -/
def dateDash (ord : ℤ) : String :=
  let c := civilFromDays (ord + 20089)
  natPad 4 c.1 ++ "-" ++ natPad 2 c.2.1 ++ "-" ++ natPad 2 c.2.2

/-- Python `date.weekday()` (Monday = 0); 2025-01-01 was a Wednesday. -/
def pyWeekday (ord : ℤ) : ℤ := (ord + 2) % 7

/-- Rendering `date.strftime("%A")`. -/
def dayNameOf (ord : ℤ) : String :=
  match (pyWeekday ord).toNat with
  | 0 => "Monday"
  | 1 => "Tuesday"
  | 2 => "Wednesday"
  | 3 => "Thursday"
  | 4 => "Friday"
  | 5 => "Saturday"
  | _ => "Sunday"

/-! ## Data model (`Exercise.py`) -/

/-- Enum `FitnessLevel`; `other` captures values outside the enum, for
which every lookup table in the source supplies a `.get` default. -/
inductive FitnessLevel : Type
  | beginner
  | intermediate
  | advanced
  | other (s : String)
deriving DecidableEq, Repr

/-- Rendering used inside f-string seed keys. -/
def fitnessStr : FitnessLevel → String
  | .beginner => "FitnessLevel.BEGINNER"
  | .intermediate => "FitnessLevel.INTERMEDIATE"
  | .advanced => "FitnessLevel.ADVANCED"
  | .other s => s

/-- Rendering of `user.fitness_level.value`. -/
def fitnessValue : FitnessLevel → String
  | .beginner => "Beginner"
  | .intermediate => "Intermediate"
  | .advanced => "Advanced"
  | .other s => s

inductive HealthCondition : Type
  | kneePain
  | backPain
  | heartCondition
  | shoulderInjury
deriving DecidableEq, Repr

structure UserProfile : Type where
  age : ℤ
  height : ℚ
  weight : ℚ
  gender : String
  fitness_level : FitnessLevel
  health_conditions : List HealthCondition
  goal : String
  preferred_days : ℕ
deriving DecidableEq, Repr

/-- Table `ExerciseDatabase.workout_types` (unknown keys behave as empty). -/
def workoutTypes (wt : String) : List String :=
  if wt = "Cardio" then
    ["Treadmill", "Cycling", "Swimming", "Rowing", "Elliptical",
     "Jump Rope", "Running", "Stair Climbing", "Boxing", "Kickboxing",
     "Dancing", "Mountain Climbers", "Burpees", "High Knees"]
  else if wt = "Strength" then
    ["Squats", "Deadlifts", "Bench Press", "Shoulder Press",
     "Pull-ups", "Push-ups", "Lunges", "Dumbbell Rows",
     "Leg Press", "Tricep Dips", "Bicep Curls", "Plank Holds",
     "Romanian Deadlifts", "Hip Thrusts", "Face Pulls"]
  else if wt = "Flexibility" then
    ["Yoga", "Pilates", "Dynamic Stretching", "Static Stretching",
     "Foam Rolling", "Mobility Work", "Cat-Cow Stretch",
     "Downward Dog", "Child's Pose", "Hamstring Stretch",
     "Hip Flexor Stretch", "Shoulder Rolls", "Spine Twists"]
  else if wt = "HIIT" then
    ["Burpee Intervals", "Sprint Intervals", "Jump Rope Intervals",
     "Mountain Climber Intervals", "Squat Jumps", "Box Jumps",
     "Battle Ropes", "Kettlebell Swings", "Medicine Ball Slams"]
  else []

/-- Table `ExerciseDatabase.health_restrictions`. -/
def healthRestrictions : HealthCondition → List String
  | .kneePain =>
    ["Squats", "Lunges", "Box Jumps", "Jump Rope",
     "Stair Climbing", "Burpees", "Mountain Climbers"]
  | .backPain =>
    ["Deadlifts", "Romanian Deadlifts", "Shoulder Press",
     "Bench Press", "Good Mornings"]
  | .heartCondition =>
    ["HIIT", "Sprint Intervals", "Burpee Intervals",
     "Box Jumps", "Battle Ropes"]
  | .shoulderInjury =>
    ["Pull-ups", "Shoulder Press", "Bench Press",
     "Face Pulls", "Push-ups"]

/-- Table `ExerciseDatabase.equipment_mapping` (exercises absent require none). -/
def equipmentMapping (e : String) : List String :=
  if e = "Treadmill" then ["Treadmill"]
  else if e = "Cycling" then ["Stationary Bike"]
  else if e = "Yoga" then ["Yoga Mat"]
  else if e = "Kettlebell Swings" then ["Kettlebell"]
  else if e = "Box Jumps" then ["Plyo Box"]
  else if e = "Deadlifts" then ["Barbell", "Weight Plates"]
  else if e = "Squats" then ["Barbell", "Weight Plates"]
  else if e = "Swimming" then ["Pool Access"]
  else if e = "Rowing" then ["Rowing Machine"]
  else []

/-- One entry of `goal_workout_mapping`: the split is an *ordered*
association list (Python dict insertion order), as is the intensity map. -/
structure GoalPolicy : Type where
  primary : String
  split : List (String × ℚ)
  intensity : List (String × String)
deriving DecidableEq, Repr

def weightLossPolicy : GoalPolicy :=
  { primary := "Cardio"
    split := [("Cardio", 1/2), ("Strength", 3/10), ("HIIT", 1/5)]
    intensity :=
      [("Cardio", "65-75% max heart rate"), ("Strength", "12-15 reps"),
       ("HIIT", "30 seconds work/30 seconds rest")] }

def muscleGainPolicy : GoalPolicy :=
  { primary := "Strength"
    split := [("Strength", 7/10), ("Cardio", 3/20), ("Flexibility", 3/20)]
    intensity :=
      [("Strength", "8-12 reps"), ("Cardio", "20-30 minutes low intensity"),
       ("Flexibility", "15-20 minutes")] }

def endurancePolicy : GoalPolicy :=
  { primary := "Cardio"
    split := [("Cardio", 3/5), ("Strength", 1/4), ("Flexibility", 3/20)]
    intensity :=
      [("Cardio", "60-70% max heart rate"), ("Strength", "15-20 reps"),
       ("Flexibility", "20-30 minutes")] }

def flexibilityPolicy : GoalPolicy :=
  { primary := "Flexibility"
    split := [("Flexibility", 3/5), ("Strength", 1/4), ("Cardio", 3/20)]
    intensity :=
      [("Flexibility", "30-45 minutes"), ("Strength", "12-15 reps"),
       ("Cardio", "20-30 minutes low intensity")] }

/-- Key lookup in `goal_workout_mapping`. -/
def goalLookup (goal : String) : Option GoalPolicy :=
  if goal = "Weight Loss" then some weightLossPolicy
  else if goal = "Muscle Gain" then some muscleGainPolicy
  else if goal = "Endurance" then some endurancePolicy
  else if goal = "Flexibility" then some flexibilityPolicy
  else none

/-! ## Core operations (`WorkoutPlanner`) -/

/-- Fitness-level base factor inside `calculate_difficulty_modifier`
(the `.get(..., 1.0)` dictionary). -/
def fitnessBase : FitnessLevel → ℚ
  | .beginner => 4/5
  | .intermediate => 11/10
  | .advanced => 7/5
  | .other _ => 1

/-- Embedding of `WorkoutPlanner.calculate_difficulty_modifier`. -/
def calculate_difficulty_modifier (u : UserProfile) : ℚ :=
  let base := fitnessBase u.fitness_level
  if u.health_conditions.isEmpty then base else base * (9/10)

/-- The `Progression` dictionary produced by `calculate_progression`. -/
structure Progression : Type where
  volume : ℚ
  intensity : ℚ
  complexity : ℤ
deriving DecidableEq, Repr

/-- Embedding of `WorkoutPlanner.calculate_progression`.  The week is an integer
(`(date - 2025-01-01).days`-derived weeks can be non-positive);
`int((week - 1) / 2)` is Python float truncation, i.e. `pyInt`. -/
def calculate_progression (week : ℤ) (difficulty_modifier : ℚ) : Progression :=
  { volume := (1 + (1/10) * ((week : ℚ) - 1)) * difficulty_modifier
    intensity := (1 + (1/20) * ((week : ℚ) - 1)) * difficulty_modifier
    complexity := min 3 (1 + pyInt (((week : ℚ) - 1) / 2)) }

/-- The accumulation loop in `select_workout_type`: first type whose
running sum is `≥ rand` (the code tests `rand <= cumulative`). -/
def selectWalk (rand : ℚ) (cumulative : ℚ) : List (String × ℚ) → Option String
  | [] => none
  | (t, p) :: rest =>
    if rand ≤ cumulative + p then some t else selectWalk rand (cumulative + p) rest

/-- Embedding of `WorkoutPlanner.select_workout_type`, with the random draw made an
explicit argument; `none` only for an empty split (where the Python
fallback `list(keys)[0]` would itself fail). -/
def select_workout_type (workout_split : List (String × ℚ)) (rand : ℚ) :
    Option String :=
  (selectWalk rand 0 workout_split).orElse (fun _ => workout_split.head?.map Prod.fst)

/-- Health-condition filtering of an exercise pool: for each condition,
drop every exercise in that condition's exclusion list. -/
def filterPool (pool : List String) (conds : List HealthCondition) : List String :=
  conds.foldl (fun p c => p.filter (fun e => e ∉ healthRestrictions c)) pool

/-- Filtered pool with the weekly-plan fallback
(`generate_daily_workout` lines 229-232). -/
def weeklyPool (wt : String) (conds : List HealthCondition) : List String :=
  let p := filterPool (workoutTypes wt) conds
  if p = [] then
    [if wt = "Cardio" then "Low-Impact Walking" else "Bodyweight Isometric Holds"]
  else p

/-- Filtered pool with the daily-challenge fallback
(`generate_daily_challenge` lines 357-359). -/
def dailyPool (wt : String) (conds : List HealthCondition) : List String :=
  let p := filterPool (workoutTypes wt) conds
  if p = [] then ["Low-Impact Alternative"] else p

/-- Weekly-plan base exercise count (`calculate_num_exercises` table,
default 3). -/
def weeklyBase : FitnessLevel → ℕ
  | .beginner => 4
  | .intermediate => 5
  | .advanced => 6
  | .other _ => 3

/-- Embedding of `WorkoutPlanner.calculate_num_exercises`. -/
def calculate_num_exercises (fitness_level : FitnessLevel) (progression : Progression) : ℤ :=
  pyInt ((weeklyBase fitness_level : ℚ) * progression.volume)

/-- Daily-challenge base exercise count (`generate_daily_challenge`
lines 362-366, default 2); used directly, with no multiplier. -/
def dailyExerciseCount : FitnessLevel → ℕ
  | .beginner => 2
  | .intermediate => 3
  | .advanced => 4
  | .other _ => 2

/-- The `ExerciseEntry` variants: the three record shapes `format_exercise` returns. -/
inductive ExerciseEntry : Type
  | strength (name : String) (sets reps : ℤ) (rest : String)
  | hiit (name : String) (intervals : ℤ) (work_time rest_time : String)
  | timed (name : String) (minutes : ℕ)
deriving DecidableEq, Repr

def entryName : ExerciseEntry → String
  | .strength n _ _ _ => n
  | .hiit n _ _ _ => n
  | .timed n _ => n

/-- Minutes of a timed (Cardio/Flexibility) entry, 0 otherwise. -/
def entryMinutes : ExerciseEntry → ℕ
  | .timed _ m => m
  | _ => 0

/-- Embedding of `WorkoutPlanner.format_exercise`.  `exercise_index` is the 0-based
position, `num_exercises` the day's selected-exercise count and
`total_duration_min` the day's total minutes. -/
def format_exercise (exercise : String) (workout_type : String)
    (progression : Progression) (exercise_index num_exercises total_duration_min : ℕ) :
    ExerciseEntry :=
  if workout_type = "Strength" then
    .strength exercise (pyInt (3 * progression.volume))
      (pyInt (10 * progression.intensity)) "60-90 seconds"
  else if workout_type = "HIIT" then
    .hiit exercise (pyInt (6 * progression.volume)) "30 seconds" "30 seconds"
  else
    let exercise_duration := total_duration_min / num_exercises
    let remainder := total_duration_min % num_exercises
    .timed exercise
      (if exercise_index < remainder then exercise_duration + 1 else exercise_duration)

/-- Embedding of `WorkoutPlanner.calculate_duration`, as total minutes (the source
formats this as `f"{n} minutes"` and parses the number straight back). -/
def calculate_duration (workout_type : String) (fitness_level : FitnessLevel) : ℕ :=
  let base : ℚ :=
    match fitness_level with
    | .beginner => 30
    | .intermediate => 45
    | .advanced => 60
    | .other _ => 45
  (pyInt (if workout_type = "HIIT" ∨ workout_type = "Cardio" then base * (4/5) else base)).toNat

def durationString (n : ℕ) : String := toString n ++ " minutes"

/-- Embedding of `WorkoutPlanner.get_required_equipment`: union (first-occurrence
order) of the equipment lists of the exercises present in the mapping. -/
def get_required_equipment (exercises : List String) : List String :=
  exercises.foldl (fun acc e => acc ++ (equipmentMapping e).filter (fun q => q ∉ acc)) []

structure WorkoutEntry : Type where
  type : String
  intensity : String
  exercises : List ExerciseEntry
  duration : String
  required_equipment : List String
deriving DecidableEq, Repr

/-- Embedding of `WorkoutPlanner.generate_daily_workout`, with the random state
explicit. -/
def generate_daily_workout (workout_type intensity : String) (u : UserProfile)
    (progression : Progression) (g : RngState) : WorkoutEntry × RngState :=
  let exercises_pool := weeklyPool workout_type u.health_conditions
  let num_exercises := calculate_num_exercises u.fitness_level progression
  let k : ℕ := (min num_exercises (exercises_pool.length : ℤ)).toNat
  let s := pySample k exercises_pool g
  let selected := s.1
  let total_duration_min := calculate_duration workout_type u.fitness_level
  let formatted := selected.enum.map
    (fun p => format_exercise p.2 workout_type progression p.1 selected.length total_duration_min)
  ({ type := workout_type
     intensity := intensity
     exercises := formatted
     duration := durationString total_duration_min
     required_equipment := get_required_equipment selected }, s.2)

/-- Lookup in a goal's `intensity_range` dictionary. -/
def intensityFor (gp : GoalPolicy) (wt : String) : String :=
  ((gp.intensity.find? (fun p => p.1 == wt)).map Prod.snd).getD ""

/-- One day of the weekly plan: draw `random.random()`, pick the type,
build the workout. -/
def planOneDay (u : UserProfile) (gp : GoalPolicy) (progression : Progression)
    (g : RngState) : WorkoutEntry × RngState :=
  let r := pyRandom g
  let wt := (select_workout_type gp.split r.1).getD ""
  generate_daily_workout wt (intensityFor gp wt) u progression r.2

/-- The `for day in range(user.preferred_days)` loop. -/
def planDays (u : UserProfile) (gp : GoalPolicy) (progression : Progression) :
    ℕ → RngState → List WorkoutEntry × RngState
  | 0, g => ([], g)
  | d + 1, g =>
    let w := planOneDay u gp progression g
    let rest := planDays u gp progression d w.2
    (w.1 :: rest.1, rest.2)

/-- The `for week in range(1, weeks + 1)` loop, returning each week's
progression snapshot with its workouts. -/
def planWeeks (u : UserProfile) (gp : GoalPolicy) (dm : ℚ) :
    ℕ → ℕ → RngState → List (Progression × List WorkoutEntry) × RngState
  | _, 0, g => ([], g)
  | week, n + 1, g =>
    let progression := calculate_progression (week : ℤ) dm
    let ws := planDays u gp progression u.preferred_days g
    let rest := planWeeks u gp dm (week + 1) n ws.2
    ((progression, ws.1) :: rest.1, rest.2)

inductive PlanError : Type
  | unknownGoal
deriving DecidableEq, Repr

structure WorkoutPlan : Type where
  weeks : List (Progression × List WorkoutEntry)
deriving DecidableEq, Repr

/-- Embedding of `WorkoutPlanner.generate_workout_plan`.  The goal lookup
`self.goal_workout_mapping[user.goal]` raises `KeyError` for an unknown
goal; this is the `UnknownGoal` failure (the `start_date = datetime.now()`
timestamp is wall-clock and outside the model). -/
def generate_workout_plan (u : UserProfile) (weeks : ℕ) (g : RngState) :
    Except PlanError (WorkoutPlan × RngState) :=
  let dm := calculate_difficulty_modifier u
  match goalLookup u.goal with
  | none => .error .unknownGoal
  | some gp =>
    let r := planWeeks u gp dm 1 weeks g
    .ok ({ weeks := r.1 }, r.2)

/-! ## Daily challenge and batch (`generate_daily_challenge`, `app.py`) -/

/-- The cumulative scan inside `random.choices` (bisect over cumulative
weights): first entry whose cumulative weight strictly exceeds the draw. -/
def choiceWalk (u : ℚ) (cumulative : ℚ) : List (String × ℚ) → Option String
  | [] => none
  | (t, p) :: rest =>
    if u < cumulative + p then some t else choiceWalk u (cumulative + p) rest

/-- Model of `random.choices(types, weights=w, k=1)[0]`: one uniform draw
scaled by the total weight, resolved against the cumulative weights
(clamped to the last entry, as CPython's bisect upper bound is). -/
def pyChoice (split : List (String × ℚ)) (g : RngState) : String × RngState :=
  let r := pyRandom g
  let total := (split.map Prod.snd).sum
  ((choiceWalk (r.1 * total) 0 split).getD
    (((split.getLast?).map Prod.fst).getD ""), r.2)

structure DailyChallenge : Type where
  name : String
  date : String
  day_of_week : String
  type : String
  difficulty : String
  exercises : List ExerciseEntry
  duration : String
  required_equipment : List String
deriving DecidableEq, Repr

/-- Seed key `f"{user.age}{user.fitness_level}{date.strftime('%Y%m%d')}"`. -/
def seedKey1 (u : UserProfile) (ord : ℤ) : String :=
  toString u.age ++ fitnessStr u.fitness_level ++ yyyymmdd ord

/-- Second seed key, with `date.weekday()` appended. -/
def seedKey2 (u : UserProfile) (ord : ℤ) : String :=
  seedKey1 u ord ++ toString (pyWeekday ord)

/-- Embedding of `WorkoutPlanner.generate_daily_challenge` for the date with ordinal
`ord` (days since 2025-01-01).  The incoming random state is overwritten
by `random.seed(...)` before any draw, which is the determinism contract. -/
def generate_daily_challenge (u : UserProfile) (ord : ℤ) (_g : RngState) :
    DailyChallenge × RngState :=
  let _g1 := pySeed (seedKey1 u ord)
  let day := ord + 1
  let week := (day - 1).fdiv 7 + 1
  let difficulty := calculate_difficulty_modifier u
  let gp := (goalLookup u.goal).getD weightLossPolicy
  let g2 := pySeed (seedKey2 u ord)
  let c := pyChoice gp.split g2
  let workout_type := c.1
  let exercises_pool := dailyPool workout_type u.health_conditions
  let exercise_count := dailyExerciseCount u.fitness_level
  let s := pySample (min exercise_count exercises_pool.length) exercises_pool c.2
  let selected := s.1
  let total_duration_min := calculate_duration workout_type u.fitness_level
  let progression := calculate_progression week difficulty
  let formatted := selected.enum.map
    (fun p => format_exercise p.2 workout_type progression p.1 selected.length total_duration_min)
  let day_name := dayNameOf ord
  ({ name := day_name ++ " " ++ workout_type ++ " Challenge"
     date := dateDash ord
     day_of_week := day_name
     type := workout_type
     difficulty := fitnessValue u.fitness_level
     exercises := formatted
     duration := durationString total_duration_min
     required_equipment := get_required_equipment selected },
   s.2)

/-- The `while current_date <= end_date and day_count < days_limit` loop
of `get_daily_challenges_batch` (`app.py` lines 338-354), `days_limit = 31`. -/
def batchGo (u : UserProfile) (end_ord : ℤ) (cur : ℤ) (count : ℕ) (g : RngState) :
    List DailyChallenge :=
  if h : cur ≤ end_ord ∧ count < 31 then
    let c := generate_daily_challenge u cur g
    c.1 :: batchGo u end_ord (cur + 1) (count + 1) c.2
  else []
termination_by 31 - count
decreasing_by omega

/-- Embedding of `get_daily_challenges_batch` after date validation: one challenge per
day from `start_ord`, capped at 31. -/
def batchChallenges (u : UserProfile) (start_ord end_ord : ℤ) (g : RngState) :
    List DailyChallenge :=
  batchGo u end_ord start_ord 0 g

/-! ## Helper lemmas -/

theorem pyInt_nonneg_floor {q : ℚ} (h : 0 ≤ q) : pyInt q = ⌊q⌋ := by
  simp [pyInt, h]

theorem pyInt_intCast_div_two (a : ℤ) (h : 0 ≤ a) : pyInt ((a : ℚ) / 2) = a / 2 := by
  have h2 : (0 : ℚ) ≤ (a : ℚ) / 2 := by positivity
  rw [pyInt_nonneg_floor h2]
  have := Rat.floor_intCast_div_natCast a 2
  simpa using this

/-- A daily challenge does not depend on the incoming random state: the
body reseeds before every draw. -/
theorem generate_daily_challenge_state_free (u : UserProfile) (ord : ℤ)
    (g g' : RngState) :
    generate_daily_challenge u ord g = generate_daily_challenge u ord g' := rfl

/-! ## C1 -/

/-- C1: for every user profile and every fixed date, two calls of
`generate_daily_challenge` with identical profile and date return
identical results (title, date string, day-of-week, category, difficulty
label, exercise list, duration and equipment — the whole challenge record
and even the final random state), whatever the random-source state was at
entry, because the source is reseeded from
(age, fitness_level, date-as-YYYYMMDD) and then again from
(age, fitness_level, date-as-YYYYMMDD, weekday) before any random draw. -/
theorem C1_daily_challenge_deterministic (u : UserProfile) (ord : ℤ)
    (g g' : RngState) :
    generate_daily_challenge u ord g = generate_daily_challenge u ord g' :=
  generate_daily_challenge_state_free u ord g g'

/-! ## C7 -/

/-- C7: for every 1-based week number and positive difficulty modifier,
`calculate_progression` returns exactly
volume = (1 + 0.1·(week−1))·dm, intensity = (1 + 0.05·(week−1))·dm and
complexity tier min(3, 1 + ⌊(week−1)/2⌋); it is a total pure function. -/
theorem C7_calculate_progression_spec (week : ℤ) (dm : ℚ)
    (hw : 1 ≤ week) (_hdm : 0 < dm) :
    calculate_progression week dm =
      { volume := (1 + (1/10) * ((week : ℚ) - 1)) * dm
        intensity := (1 + (1/20) * ((week : ℚ) - 1)) * dm
        complexity := min 3 (1 + (week - 1) / 2) } := by
  have h0 : (0 : ℤ) ≤ week - 1 := by omega
  have : pyInt (((week : ℚ) - 1) / 2) = (week - 1) / 2 := by
    have := pyInt_intCast_div_two (week - 1) h0
    rw [← this]
    norm_num
  simp [calculate_progression, this]

/-- Witness for C7 at week 3, difficulty modifier 1. -/
theorem C7_witness :
    (1 : ℤ) ≤ 3 ∧ (0 : ℚ) < 1 ∧
      calculate_progression 3 1 =
        { volume := (1 + (1/10) * (((3 : ℤ) : ℚ) - 1)) * 1
          intensity := (1 + (1/20) * (((3 : ℤ) : ℚ) - 1)) * 1
          complexity := min 3 (1 + ((3 : ℤ) - 1) / 2) } :=
  ⟨by decide, one_pos, C7_calculate_progression_spec 3 1 (by decide) one_pos⟩

/-! ## C8 -/

/-- C8: `calculate_difficulty_modifier` is the fitness-level base factor
(Beginner 0.8, Intermediate 1.1, Advanced 1.4, anything else 1.0)
multiplied by 0.9 exactly when the health-condition list is non-empty and
by 1 otherwise; in particular a Beginner with no conditions gets 0.8. -/
theorem C8_difficulty_modifier_spec (u : UserProfile) :
    calculate_difficulty_modifier u =
      fitnessBase u.fitness_level *
        (if u.health_conditions = [] then 1 else 9/10) ∧
    (u.fitness_level = .beginner → u.health_conditions = [] →
      calculate_difficulty_modifier u = 4/5) := by
  constructor
  · by_cases h : u.health_conditions = [] <;>
      simp [calculate_difficulty_modifier, h, List.isEmpty_iff]
  · intro hf hc
    simp [calculate_difficulty_modifier, hf, hc, fitnessBase, List.isEmpty_iff]

/-- Witness for C8: a concrete Beginner profile with no conditions. -/
theorem C8_witness :
    calculate_difficulty_modifier
      { age := 25, height := 170, weight := 70, gender := "F"
        fitness_level := .beginner, health_conditions := []
        goal := "Weight Loss", preferred_days := 3 } = 4/5 :=
  (C8_difficulty_modifier_spec _).2 rfl rfl

/-! ## C2: minute-exact duration split -/

theorem sum_map_add_nat (l : List ℕ) (f h : ℕ → ℕ) :
    (l.map (fun i => f i + h i)).sum = (l.map f).sum + (l.map h).sum := by
  induction l with
  | nil => simp
  | cons a t ih => simp [ih]; omega

theorem sum_range_indicator (N r : ℕ) :
    ((List.range N).map (fun i => if i < r then 1 else 0)).sum = min r N := by
  induction N with
  | zero => simp
  | succ n ih =>
    rw [List.range_succ, List.map_append, List.sum_append, ih]
    by_cases h : n < r <;> simp [h] <;> omega

/-- C2: on a non-Strength, non-HIIT day with `N ≥ 1` exercises and total
duration `D` minutes, `format_exercise` gives each exercise `D / N`
minutes plus one extra minute for each of the first `D % N` indices, and
the per-exercise durations sum to exactly `D`. -/
theorem C2_duration_sum (name wt : String) (prog : Progression) (N D : ℕ)
    (h1 : wt ≠ "Strength") (h2 : wt ≠ "HIIT") (hN : 1 ≤ N) :
    (∀ i : ℕ, format_exercise name wt prog i N D =
        .timed name (D / N + if i < D % N then 1 else 0)) ∧
    ((List.range N).map
        (fun i => entryMinutes (format_exercise name wt prog i N D))).sum = D := by
  have hform : ∀ i : ℕ, format_exercise name wt prog i N D =
      .timed name (D / N + if i < D % N then 1 else 0) := by
    intro i
    simp only [format_exercise, h1, h2, if_false]
    by_cases h : i < D % N <;> simp [h]
  refine ⟨hform, ?_⟩
  have : ((List.range N).map
      (fun i => entryMinutes (format_exercise name wt prog i N D))).sum =
      ((List.range N).map (fun i => D / N + if i < D % N then 1 else 0)).sum := by
    congr 1
    exact List.map_congr_left (fun i _ => by rw [hform i]; rfl)
  rw [this, sum_map_add_nat, sum_range_indicator]
  have hconst : ((List.range N).map (fun _ => D / N)).sum = N * (D / N) := by
    rw [List.map_const']
    simp [List.sum_replicate, List.length_range]
  rw [hconst]
  have hm : min (D % N) N = D % N :=
    min_eq_left (le_of_lt (Nat.mod_lt D hN))
  rw [hm]
  exact Nat.div_add_mod D N

/-- Witness for C2: a Cardio day, 3 exercises, 24 total minutes. -/
theorem C2_witness :
    ("Cardio" ≠ "Strength") ∧ ("Cardio" ≠ "HIIT") ∧ (1 ≤ 3) ∧
    ((∀ i : ℕ, format_exercise "Running" "Cardio"
        { volume := 1, intensity := 1, complexity := 1 } i 3 25 =
        .timed "Running" (25 / 3 + if i < 25 % 3 then 1 else 0)) ∧
      ((List.range 3).map
        (fun i => entryMinutes (format_exercise "Running" "Cardio"
          { volume := 1, intensity := 1, complexity := 1 } i 3 25))).sum = 25) :=
  ⟨by decide, by decide, by decide,
    C2_duration_sum "Running" "Cardio" _ 3 25 (by decide) (by decide) (by decide)⟩

/-! ## C5: filtered pool is never empty -/

theorem filterPool_subset : ∀ (conds : List HealthCondition) (pool : List String),
    filterPool pool conds ⊆ pool := by
  intro conds
  induction conds with
  | nil => intro pool; simp [filterPool]
  | cons c cs ih =>
    intro pool
    have h1 : filterPool pool (c :: cs) =
        filterPool (pool.filter (fun e => e ∉ healthRestrictions c)) cs := rfl
    rw [h1]
    exact fun x hx => List.mem_of_mem_filter (ih _ hx)

/-- C5: for every workout category and every set of health conditions,
both call sites produce a non-empty pool; when the filter empties the pool
the weekly path substitutes "Low-Impact Walking" (Cardio) or "Bodyweight
Isometric Holds" and the daily path substitutes "Low-Impact Alternative";
and filtering only ever removes elements from a copy of the catalog list
(the catalog itself, `workoutTypes`, is a constant never written to). -/
theorem C5_pool_never_empty (wt : String) (conds : List HealthCondition) :
    weeklyPool wt conds ≠ [] ∧
    dailyPool wt conds ≠ [] ∧
    (filterPool (workoutTypes wt) conds = [] →
      weeklyPool wt conds =
        [if wt = "Cardio" then "Low-Impact Walking" else "Bodyweight Isometric Holds"] ∧
      dailyPool wt conds = ["Low-Impact Alternative"]) ∧
    filterPool (workoutTypes wt) conds ⊆ workoutTypes wt := by
  refine ⟨?_, ?_, ?_, filterPool_subset conds (workoutTypes wt)⟩
  · by_cases h : filterPool (workoutTypes wt) conds = [] <;> simp [weeklyPool, h]
  · by_cases h : filterPool (workoutTypes wt) conds = [] <;> simp [dailyPool, h]
  · intro h
    exact ⟨by simp [weeklyPool, h], by simp [dailyPool, h]⟩

/-- Witness for C5: HIIT with every health condition present (this filter
empties the raw pool, so the fallbacks actually fire). -/
theorem C5_witness :
    weeklyPool "HIIT" [.kneePain, .backPain, .heartCondition, .shoulderInjury] ≠ [] ∧
    dailyPool "HIIT" [.kneePain, .backPain, .heartCondition, .shoulderInjury] ≠ [] ∧
    (filterPool (workoutTypes "HIIT")
        [.kneePain, .backPain, .heartCondition, .shoulderInjury] = [] →
      weeklyPool "HIIT" [.kneePain, .backPain, .heartCondition, .shoulderInjury] =
        [if "HIIT" = "Cardio" then "Low-Impact Walking" else "Bodyweight Isometric Holds"] ∧
      dailyPool "HIIT" [.kneePain, .backPain, .heartCondition, .shoulderInjury] =
        ["Low-Impact Alternative"]) ∧
    filterPool (workoutTypes "HIIT")
        [.kneePain, .backPain, .heartCondition, .shoulderInjury] ⊆
      workoutTypes "HIIT" :=
  C5_pool_never_empty "HIIT" [.kneePain, .backPain, .heartCondition, .shoulderInjury]

/-! ## C6: workout-type selection walk -/

/-- Running sum of the first `j+1` probabilities of the split. -/
def cumProb (split : List (String × ℚ)) (j : ℕ) : ℚ :=
  ((split.take (j + 1)).map Prod.snd).sum

theorem cumProb_cons_zero (t : String) (p : ℚ) (rest : List (String × ℚ)) :
    cumProb ((t, p) :: rest) 0 = p := by
  simp [cumProb]

theorem cumProb_cons_succ (t : String) (p : ℚ) (rest : List (String × ℚ)) (k : ℕ) :
    cumProb ((t, p) :: rest) (k + 1) = p + cumProb rest k := by
  simp [cumProb, List.take_succ_cons]

theorem selectWalk_eq_none_iff (r : ℚ) :
    ∀ (split : List (String × ℚ)) (acc : ℚ),
      selectWalk r acc split = none ↔
        ∀ j, j < split.length → ¬ r ≤ acc + cumProb split j := by
  intro split
  induction split with
  | nil => intro acc; simp [selectWalk]
  | cons hd rest ih =>
    intro acc
    obtain ⟨t, p⟩ := hd
    by_cases hr : r ≤ acc + p
    · simp only [selectWalk, if_pos hr]
      constructor
      · intro h; exact absurd h (by simp)
      · intro h
        exact absurd (by simpa [cumProb_cons_zero] using h 0 (by simp)) (by simp [hr])
    · simp only [selectWalk, if_neg hr]
      rw [ih (acc + p)]
      constructor
      · intro h j hj
        match j with
        | 0 => simpa [cumProb_cons_zero] using hr
        | k + 1 =>
          have := h k (by simpa using hj)
          rw [cumProb_cons_succ]
          intro hcon
          exact this (by linarith)
      · intro h j hj
        have := h (j + 1) (by simpa using hj)
        rw [cumProb_cons_succ] at this
        intro hcon
        exact this (by linarith)

theorem selectWalk_first (r : ℚ) :
    ∀ (split : List (String × ℚ)) (acc : ℚ) (j : ℕ) (hj : j < split.length),
      r ≤ acc + cumProb split j →
      (∀ k, k < j → ¬ r ≤ acc + cumProb split k) →
      selectWalk r acc split = some (split.get ⟨j, hj⟩).1 := by
  intro split
  induction split with
  | nil => intro acc j hj; simp at hj
  | cons hd rest ih =>
    intro acc j hj hle hmin
    obtain ⟨t, p⟩ := hd
    match j with
    | 0 =>
      rw [cumProb_cons_zero] at hle
      simp [selectWalk, if_pos hle]
    | k + 1 =>
      have h0 : ¬ r ≤ acc + p := by
        have := hmin 0 (by omega)
        simpa [cumProb_cons_zero] using this
      rw [cumProb_cons_succ] at hle
      have hrec := ih (acc + p) k (by simpa using hj)
        (by linarith)
        (fun m hm => by
          have := hmin (m + 1) (by omega)
          rw [cumProb_cons_succ] at this
          intro hcon
          exact this (by linarith))
      simp only [selectWalk, if_neg h0]
      rw [hrec]
      rfl

/-- C6: for every non-empty ordered category-probability mapping and
every draw `r`, `select_workout_type` never fails; it returns the first
category whose running probability sum is `≥ r`, and if no running sum
reaches `r` it returns the first category of the mapping. -/
theorem C6_select_workout_type_spec (split : List (String × ℚ)) (r : ℚ)
    (h : split ≠ []) :
    (select_workout_type split r).isSome = true ∧
    (∀ j (hj : j < split.length),
      r ≤ cumProb split j →
      (∀ k, k < j → ¬ r ≤ cumProb split k) →
      select_workout_type split r = some (split.get ⟨j, hj⟩).1) ∧
    ((∀ j, j < split.length → ¬ r ≤ cumProb split j) →
      select_workout_type split r = some ((split.head h).1)) := by
  refine ⟨?_, ?_, ?_⟩
  · unfold select_workout_type
    cases hw : selectWalk r 0 split with
    | some c => simp [Option.orElse]
    | none =>
      simp only [Option.orElse]
      match split, h with
      | hd :: tl, _ => simp
  · intro j hj hle hmin
    have hw := selectWalk_first r split 0 j hj (by simpa using hle)
      (fun k hk => by simpa using hmin k hk)
    unfold select_workout_type
    rw [hw]
    rfl
  · intro hnone
    have hw : selectWalk r 0 split = none := by
      rw [selectWalk_eq_none_iff]
      intro j hj
      simpa using hnone j hj
    unfold select_workout_type
    rw [hw]
    match split, h with
    | hd :: tl, _ => simp [Option.orElse]

/-- Witness for C6 on the Weight-Loss split at draw 1/4 (first running
sum 1/2 already reaches it). -/
theorem C6_witness :
    (weightLossPolicy.split ≠ []) ∧
    ((select_workout_type weightLossPolicy.split (1/4)).isSome = true ∧
      (∀ j (hj : j < weightLossPolicy.split.length),
        (1/4 : ℚ) ≤ cumProb weightLossPolicy.split j →
        (∀ k, k < j → ¬ (1/4 : ℚ) ≤ cumProb weightLossPolicy.split k) →
        select_workout_type weightLossPolicy.split (1/4) =
          some (weightLossPolicy.split.get ⟨j, hj⟩).1) ∧
      ((∀ j, j < weightLossPolicy.split.length →
          ¬ (1/4 : ℚ) ≤ cumProb weightLossPolicy.split j) →
        select_workout_type weightLossPolicy.split (1/4) =
          some ((weightLossPolicy.split.head (by simp [weightLossPolicy])).1))) :=
  ⟨by simp [weightLossPolicy],
    C6_select_workout_type_spec weightLossPolicy.split (1/4)
      (by simp [weightLossPolicy])⟩

/-! ## C4: unknown-goal asymmetry -/

/-- C4: with a goal that has no policy entry, `generate_workout_plan`
fails with the UnknownGoal condition, while `generate_daily_challenge`
with the same profile does not fail and behaves exactly as if the goal
were "Weight Loss". -/
theorem C4_unknown_goal_asymmetry (u : UserProfile) (weeks : ℕ) (ord : ℤ)
    (g g' : RngState) (h : goalLookup u.goal = none) :
    generate_workout_plan u weeks g = Except.error PlanError.unknownGoal ∧
    generate_daily_challenge u ord g' =
      generate_daily_challenge { u with goal := "Weight Loss" } ord g' := by
  constructor
  · simp [generate_workout_plan, h]
  · have hgd : (goalLookup u.goal).getD weightLossPolicy = weightLossPolicy := by
      rw [h]; rfl
    have hWL : goalLookup "Weight Loss" = some weightLossPolicy := rfl
    have hdm : calculate_difficulty_modifier { u with goal := "Weight Loss" } =
        calculate_difficulty_modifier u := rfl
    simp [generate_daily_challenge, seedKey1, seedKey2, hgd, hWL, hdm]

/-- Witness for C4: the goal "Nonexistent". -/
theorem C4_witness :
    goalLookup "Nonexistent" = none ∧
    (generate_workout_plan
        { age := 45, height := 170, weight := 85, gender := "Female"
          fitness_level := .intermediate, health_conditions := []
          goal := "Nonexistent", preferred_days := 5 } 4 0 =
      Except.error PlanError.unknownGoal ∧
    generate_daily_challenge
        { age := 45, height := 170, weight := 85, gender := "Female"
          fitness_level := .intermediate, health_conditions := []
          goal := "Nonexistent", preferred_days := 5 } 0 0 =
      generate_daily_challenge
        { age := 45, height := 170, weight := 85, gender := "Female"
          fitness_level := .intermediate, health_conditions := []
          goal := "Weight Loss", preferred_days := 5 } 0 0) :=
  ⟨by simp [goalLookup], C4_unknown_goal_asymmetry _ 4 0 0 0 (by simp [goalLookup])⟩

/-! ## Sampling lemmas -/

theorem pySample_length {α : Type} :
    ∀ (k : ℕ) (pool : List α) (g : RngState),
      ((pySample k pool g).1).length = min k pool.length := by
  intro k
  induction k with
  | zero => intro pool g; simp [pySample]
  | succ n ih =>
    intro pool g
    match pool with
    | [] => simp [pySample]
    | p :: rest =>
      simp only [pySample]
      have hlt : lcgNext g % (rest.length + 1) < (p :: rest).length := by
        exact Nat.mod_lt _ (Nat.succ_pos _)
      rw [List.length_cons, ih]
      rw [List.length_eraseIdx_of_lt hlt]
      simp only [List.length_cons]
      omega

theorem pySample_subset {α : Type} :
    ∀ (k : ℕ) (pool : List α) (g : RngState),
      ∀ x ∈ (pySample k pool g).1, x ∈ pool := by
  intro k
  induction k with
  | zero => intro pool g x hx; simp [pySample] at hx
  | succ n ih =>
    intro pool g x hx
    match pool with
    | [] => simp [pySample] at hx
    | p :: rest =>
      simp only [pySample, List.mem_cons] at hx
      rcases hx with h | h
      · rw [h]; exact List.get_mem _ _ _
      · exact List.eraseIdx_subset _ _ (ih _ _ _ h)

theorem get_not_mem_eraseIdx {α : Type} :
    ∀ (l : List α) (i : ℕ) (h : i < l.length), l.Nodup →
      l.get ⟨i, h⟩ ∉ l.eraseIdx i := by
  intro l
  induction l with
  | nil => intro i h; simp at h
  | cons a t ih =>
    intro i h hnd
    have hnd' := hnd
    rw [List.nodup_cons] at hnd'
    match i with
    | 0 =>
      simpa using hnd'.1
    | j + 1 =>
      have hj : j < t.length := by simpa using h
      have hget : (a :: t).get ⟨j + 1, h⟩ = t.get ⟨j, hj⟩ := rfl
      rw [hget]
      simp only [List.eraseIdx_cons_succ, List.mem_cons]
      push_neg
      constructor
      · intro hc
        exact hnd'.1 (hc ▸ List.get_mem t j hj)
      · exact ih j hj hnd'.2

theorem pySample_nodup {α : Type} :
    ∀ (k : ℕ) (pool : List α) (g : RngState),
      pool.Nodup → ((pySample k pool g).1).Nodup := by
  intro k
  induction k with
  | zero => intro pool g _; simp [pySample]
  | succ n ih =>
    intro pool g hnd
    match pool with
    | [] => simp [pySample]
    | p :: rest =>
      simp only [pySample, List.nodup_cons]
      refine ⟨?_, ih _ _ (List.Nodup.eraseIdx _ hnd)⟩
      intro hc
      exact get_not_mem_eraseIdx (p :: rest) _ _ hnd (pySample_subset _ _ _ _ hc)

/-! ## Exercise-count lemmas -/

theorem weeklyPool_ne_nil (wt : String) (conds : List HealthCondition) :
    weeklyPool wt conds ≠ [] := by
  by_cases h : filterPool (workoutTypes wt) conds = [] <;> simp [weeklyPool, h]

theorem dailyPool_ne_nil (wt : String) (conds : List HealthCondition) :
    dailyPool wt conds ≠ [] := by
  by_cases h : filterPool (workoutTypes wt) conds = [] <;> simp [dailyPool, h]

theorem difficulty_modifier_lb (u : UserProfile) :
    (18/25 : ℚ) ≤ calculate_difficulty_modifier u := by
  unfold calculate_difficulty_modifier
  cases u.fitness_level <;>
    by_cases h : u.health_conditions.isEmpty <;>
      simp [fitnessBase, h] <;> norm_num

theorem weeklyBase_cast_ge (fl : FitnessLevel) : (3 : ℚ) ≤ (weeklyBase fl : ℚ) := by
  cases fl <;> simp [weeklyBase] <;> norm_num

theorem dailyExerciseCount_ge (fl : FitnessLevel) : 2 ≤ dailyExerciseCount fl := by
  cases fl <;> simp [dailyExerciseCount]

/-- For a progression actually derived from a user's difficulty modifier
in week ≥ 1, the weekly exercise count is at least 2. -/
theorem calculate_num_exercises_ge_two (u : UserProfile) (week : ℤ) (hw : 1 ≤ week) :
    2 ≤ calculate_num_exercises u.fitness_level
      (calculate_progression week (calculate_difficulty_modifier u)) := by
  have hdm := difficulty_modifier_lb u
  have hbase := weeklyBase_cast_ge u.fitness_level
  have hcast : (1 : ℚ) ≤ ((week : ℤ) : ℚ) := by exact_mod_cast hw
  have hvol : (18/25 : ℚ) ≤
      (calculate_progression week (calculate_difficulty_modifier u)).volume := by
    unfold calculate_progression
    have h1 : (0 : ℚ) ≤ (1/10) * (((week : ℤ) : ℚ) - 1) := by nlinarith
    nlinarith
  unfold calculate_num_exercises
  have hq : (2 : ℚ) ≤ (weeklyBase u.fitness_level : ℚ) *
      (calculate_progression week (calculate_difficulty_modifier u)).volume := by
    nlinarith
  have h0 : (0 : ℚ) ≤ (weeklyBase u.fitness_level : ℚ) *
      (calculate_progression week (calculate_difficulty_modifier u)).volume := by
    linarith
  rw [pyInt_nonneg_floor h0]
  exact Int.le_floor.mpr (by exact_mod_cast hq)

/-- The day's exercise list in `generate_daily_workout` has exactly
`min(num_exercises, pool size)` entries. -/
theorem generate_daily_workout_exercises_length (wt intensity : String)
    (u : UserProfile) (prog : Progression) (g : RngState) :
    ((generate_daily_workout wt intensity u prog g).1.exercises).length =
      (min (calculate_num_exercises u.fitness_level prog)
        ((weeklyPool wt u.health_conditions).length : ℤ)).toNat := by
  simp only [generate_daily_workout, List.length_map, List.enum_length]
  rw [pySample_length]
  omega

/-- The challenge's exercise list has exactly `min(base count, pool size)`
entries, where the base count is the daily-challenge table value. -/
theorem generate_daily_challenge_exercises_length (u : UserProfile) (ord : ℤ)
    (g : RngState) :
    ((generate_daily_challenge u ord g).1.exercises).length =
      min (dailyExerciseCount u.fitness_level)
        ((dailyPool ((generate_daily_challenge u ord g).1.type)
          u.health_conditions).length) := by
  simp only [generate_daily_challenge, List.length_map, List.enum_length]
  rw [pySample_length]
  omega

/-! ## C10 -/

/-- C10: in both the weekly-plan path and the daily-challenge path the
day's exercise count — the divisor `num_exercises` handed to
`format_exercise`'s timed branch — is at least 1, so the integer division
and modulo never divide by zero. -/
theorem C10_no_division_by_zero (u : UserProfile) (week : ℤ) (hw : 1 ≤ week)
    (wt intensity : String) (g g' : RngState) (ord : ℤ) :
    1 ≤ ((generate_daily_workout wt intensity u
        (calculate_progression week (calculate_difficulty_modifier u)) g).1.exercises).length ∧
    1 ≤ ((generate_daily_challenge u ord g').1.exercises).length := by
  constructor
  · rw [generate_daily_workout_exercises_length]
    have hnum := calculate_num_exercises_ge_two u week hw
    have hpool : weeklyPool wt u.health_conditions ≠ [] := weeklyPool_ne_nil wt _
    have hlen : 1 ≤ (weeklyPool wt u.health_conditions).length :=
      List.length_pos.mpr hpool
    omega
  · rw [generate_daily_challenge_exercises_length]
    have hc := dailyExerciseCount_ge u.fitness_level
    have hpool : dailyPool ((generate_daily_challenge u ord g').1.type)
        u.health_conditions ≠ [] := dailyPool_ne_nil _ _
    have hlen : 1 ≤ (dailyPool ((generate_daily_challenge u ord g').1.type)
        u.health_conditions).length := List.length_pos.mpr hpool
    omega

/-- Witness for C10 at a concrete profile, week 1 and date. -/
theorem C10_witness :
    (1 : ℤ) ≤ 1 ∧
    (1 ≤ ((generate_daily_workout "Cardio" "65-75% max heart rate"
        { age := 45, height := 170, weight := 85, gender := "Female"
          fitness_level := .intermediate
          health_conditions := [.kneePain, .backPain]
          goal := "Weight Loss", preferred_days := 5 }
        (calculate_progression 1 (calculate_difficulty_modifier
          { age := 45, height := 170, weight := 85, gender := "Female"
            fitness_level := .intermediate
            health_conditions := [.kneePain, .backPain]
            goal := "Weight Loss", preferred_days := 5 })) 0).1.exercises).length ∧
      1 ≤ ((generate_daily_challenge
        { age := 45, height := 170, weight := 85, gender := "Female"
          fitness_level := .intermediate
          health_conditions := [.kneePain, .backPain]
          goal := "Weight Loss", preferred_days := 5 } 7 0).1.exercises).length) :=
  ⟨by decide, C10_no_division_by_zero _ 1 (by decide) "Cardio" "65-75% max heart rate" 0 0 7⟩

/-! ## C9: batch challenges -/

theorem generate_daily_challenge_date (u : UserProfile) (ord : ℤ) (g : RngState) :
    (generate_daily_challenge u ord g).1.date = dateDash ord := rfl

theorem batchGo_spec (u : UserProfile) (endd : ℤ) :
    ∀ (n : ℕ) (cur : ℤ) (count : ℕ) (g : RngState), 31 - count = n →
      batchGo u endd cur count g =
        (List.range (min (endd + 1 - cur).toNat (31 - count))).map
          (fun (i : ℕ) => (generate_daily_challenge u (cur + (i : ℤ)) 0).1) := by
  intro n
  induction n with
  | zero =>
    intro cur count g hn
    rw [batchGo, dif_neg (by omega)]
    have hz : min (endd + 1 - cur).toNat (31 - count) = 0 := by omega
    rw [hz]
    simp
  | succ m ih =>
    intro cur count g hn
    by_cases h : cur ≤ endd ∧ count < 31
    · have hstep : batchGo u endd cur count g =
          (generate_daily_challenge u cur g).1 ::
            batchGo u endd (cur + 1) (count + 1) (generate_daily_challenge u cur g).2 := by
        rw [batchGo, dif_pos h]
      rw [hstep]
      rw [ih (cur + 1) (count + 1) (generate_daily_challenge u cur g).2 (by omega)]
      have hmin : min (endd + 1 - cur).toNat (31 - count) =
          min (endd + 1 - (cur + 1)).toNat (31 - (count + 1)) + 1 := by omega
      rw [hmin, List.range_succ_eq_map, List.map_cons, List.map_map]
      congr 1
      · have hc : cur + ((0 : ℕ) : ℤ) = cur := by simp
        rw [hc]
        exact congrArg Prod.fst (generate_daily_challenge_state_free u cur g 0)
      · apply List.map_congr_left
        intro i _
        simp only [Function.comp]
        have hc : cur + ((i + 1 : ℕ) : ℤ) = cur + 1 + (i : ℤ) := by push_cast; ring
        rw [hc]
    · rw [batchGo, dif_neg h]
      have hz : min (endd + 1 - cur).toNat (31 - count) = 0 := by
        rcases not_and_or.mp h with h1 | h2 <;> omega
      rw [hz]
      simp

/-- C9: for every profile and date range with start ≤ end, the batch
assembler returns one challenge per calendar day from the start date in
order, capped at 31: the list has min(range length, 31) entries, the
`i`-th is dated `start + i`, and a range of 31 days or more yields exactly
31 challenges with later dates silently dropped. -/
theorem C9_batch_cap (u : UserProfile) (s e : ℤ) (g : RngState) (h : s ≤ e) :
    (batchChallenges u s e g).length = min (e + 1 - s).toNat 31 ∧
    (∀ i (hi : i < (batchChallenges u s e g).length),
      ((batchChallenges u s e g).get ⟨i, hi⟩).date = dateDash (s + (i : ℤ))) ∧
    (31 ≤ e + 1 - s → (batchChallenges u s e g).length = 31) := by
  have hb := batchGo_spec u e 31 s 0 g (by omega)
  have hl : batchChallenges u s e g =
      (List.range (min (e + 1 - s).toNat 31)).map
        (fun (j : ℕ) => (generate_daily_challenge u (s + (j : ℤ)) 0).1) := by
    unfold batchChallenges
    rw [hb]
  refine ⟨?_, ?_, ?_⟩
  · rw [hl]
    simp [List.length_map, List.length_range]
  · intro i hi
    simp only [List.get_eq_getElem]
    rw [List.getElem_of_eq hl]
    have hi' : i < min (e + 1 - s).toNat 31 := by
      have hx := hi
      rw [hl] at hx
      simpa using hx
    simp only [List.getElem_map, List.getElem_range]
    exact generate_daily_challenge_date u (s + (i : ℤ)) 0
  · intro hge
    rw [hl]
    simp only [List.length_map, List.length_range]
    omega

/-- Witness for C9: a 40-day range (2025-01-01 through 2025-02-09). -/
theorem C9_witness :
    (0 : ℤ) ≤ 39 ∧
    ((batchChallenges
        { age := 45, height := 170, weight := 85, gender := "Female"
          fitness_level := .intermediate, health_conditions := []
          goal := "Weight Loss", preferred_days := 5 } 0 39 0).length =
      min ((39 : ℤ) + 1 - 0).toNat 31 ∧
    (∀ i (hi : i < (batchChallenges
        { age := 45, height := 170, weight := 85, gender := "Female"
          fitness_level := .intermediate, health_conditions := []
          goal := "Weight Loss", preferred_days := 5 } 0 39 0).length),
      ((batchChallenges
        { age := 45, height := 170, weight := 85, gender := "Female"
          fitness_level := .intermediate, health_conditions := []
          goal := "Weight Loss", preferred_days := 5 } 0 39 0).get ⟨i, hi⟩).date =
        dateDash (0 + (i : ℤ))) ∧
    (31 ≤ (39 : ℤ) + 1 - 0 → (batchChallenges
        { age := 45, height := 170, weight := 85, gender := "Female"
          fitness_level := .intermediate, health_conditions := []
          goal := "Weight Loss", preferred_days := 5 } 0 39 0).length = 31)) :=
  ⟨by decide, C9_batch_cap _ 0 39 0 (by decide)⟩

/-! ## C3: exercise counts -/

theorem choiceWalk_mem (u : ℚ) :
    ∀ (l : List (String × ℚ)) (acc : ℚ) (t : String),
      choiceWalk u acc l = some t → t ∈ l.map Prod.fst := by
  intro l
  induction l with
  | nil => intro acc t h; simp [choiceWalk] at h
  | cons hd rest ih =>
    intro acc t h
    obtain ⟨s, p⟩ := hd
    by_cases hc : u < acc + p
    · simp only [choiceWalk, if_pos hc, Option.some_inj] at h
      simp [h]
    · simp only [choiceWalk, if_neg hc] at h
      simp only [List.map_cons, List.mem_cons]
      exact Or.inr (ih (acc + p) t h)

theorem pyChoice_mem (split : List (String × ℚ)) (g : RngState) (h : split ≠ []) :
    (pyChoice split g).1 ∈ split.map Prod.fst := by
  unfold pyChoice
  cases hw : choiceWalk ((pyRandom g).1 * (split.map Prod.snd).sum) 0 split with
  | some t =>
    simp only [hw, Option.getD_some]
    exact choiceWalk_mem _ split 0 t hw
  | none =>
    simp only [hw, Option.getD_none]
    have hlast : split.getLast? = some (split.getLast h) := List.getLast?_eq_getLast _ h
    rw [hlast]
    simp only [Option.map_some', Option.getD_some]
    exact List.mem_map_of_mem Prod.fst (List.getLast_mem h)

/-- The profile used to refute the daily-challenge count formula:
Advanced, no health conditions, goal "Muscle Gain". -/
def challengeProfile : UserProfile :=
  { age := 30, height := 180, weight := 80, gender := "Male"
    fitness_level := .advanced, health_conditions := []
    goal := "Muscle Gain", preferred_days := 5 }

/-- Counterexample to C3: for this Advanced profile on 2025-01-01 (week 1,
volume multiplier 1.4) the challenge selects exactly 4 exercises — the
base-table value — although the claimed formula int(base × volume)
demands int(4 × 1.4) = 5, and the pool of the chosen category holds at
least 5 exercises, so the pool minimum is not what limited it. -/
theorem C3_counterexample :
    ((generate_daily_challenge challengeProfile 0 0).1.exercises).length = 4 ∧
    pyInt ((dailyExerciseCount challengeProfile.fitness_level : ℚ) *
      (calculate_progression 1 (calculate_difficulty_modifier challengeProfile)).volume) = 5 ∧
    5 ≤ (dailyPool ((generate_daily_challenge challengeProfile 0 0).1.type)
      challengeProfile.health_conditions).length := by
  have htype : (generate_daily_challenge challengeProfile 0 0).1.type =
      (pyChoice muscleGainPolicy.split
        (pySeed (seedKey2 challengeProfile 0))).1 := rfl
  have hmem : (generate_daily_challenge challengeProfile 0 0).1.type ∈
      ["Strength", "Cardio", "Flexibility"] := by
    rw [htype]
    have := pyChoice_mem muscleGainPolicy.split
      (pySeed (seedKey2 challengeProfile 0)) (by simp [muscleGainPolicy])
    simpa [muscleGainPolicy] using this
  have hL : 5 ≤ (dailyPool ((generate_daily_challenge challengeProfile 0 0).1.type)
      challengeProfile.health_conditions).length := by
    simp only [List.mem_cons, List.mem_singleton] at hmem
    rcases hmem with h | h | h | h <;> first
      | (rw [h]; decide)
      | simp at h
  refine ⟨?_, ?_, hL⟩
  · rw [generate_daily_challenge_exercises_length]
    have hc : dailyExerciseCount challengeProfile.fitness_level = 4 := rfl
    rw [hc]
    omega
  · have hdm : calculate_difficulty_modifier challengeProfile = 7/5 := by
      simp [calculate_difficulty_modifier, challengeProfile, fitnessBase]
    have hq : (dailyExerciseCount challengeProfile.fitness_level : ℚ) *
        (calculate_progression 1 (calculate_difficulty_modifier challengeProfile)).volume
        = 28/5 := by
      rw [hdm]
      show (4 : ℚ) * ((1 + (1/10) * (((1 : ℤ) : ℚ) - 1)) * (7/5)) = 28/5
      norm_num
    rw [hq, pyInt_nonneg_floor (by norm_num)]
    rw [show (5 : ℤ) = ((5 : ℤ)) from rfl]
    rw [Int.floor_eq_iff] <;> norm_num

/-- C3 (amended): the weekly-plan path requests int(base × volume
multiplier) exercises (base 4/5/6, unknown 3) and selects
min(that count, pool size) of them; the daily-challenge path uses its base
table (2/3/4, unknown 2) directly — with no volume-multiplier scaling —
and selects min(base count, pool size); sampling returns exactly that many
distinct exercises from the pool. -/
theorem C3_amended_exercise_count :
    (∀ (fl : FitnessLevel) (prog : Progression),
      calculate_num_exercises fl prog = pyInt ((weeklyBase fl : ℚ) * prog.volume)) ∧
    (∀ (wt intensity : String) (u : UserProfile) (prog : Progression) (g : RngState),
      ((generate_daily_workout wt intensity u prog g).1.exercises).length =
        (min (calculate_num_exercises u.fitness_level prog)
          ((weeklyPool wt u.health_conditions).length : ℤ)).toNat) ∧
    (∀ (u : UserProfile) (ord : ℤ) (g : RngState),
      ((generate_daily_challenge u ord g).1.exercises).length =
        min (dailyExerciseCount u.fitness_level)
          ((dailyPool ((generate_daily_challenge u ord g).1.type)
            u.health_conditions).length)) ∧
    (∀ (k : ℕ) (pool : List String) (g : RngState),
      ((pySample k pool g).1).length = min k pool.length ∧
      (∀ x ∈ (pySample k pool g).1, x ∈ pool) ∧
      (pool.Nodup → ((pySample k pool g).1).Nodup)) :=
  ⟨fun _ _ => rfl,
   fun wt intensity u prog g =>
     generate_daily_workout_exercises_length wt intensity u prog g,
   fun u ord g => generate_daily_challenge_exercises_length u ord g,
   fun k pool g =>
     ⟨pySample_length k pool g, pySample_subset k pool g, pySample_nodup k pool g⟩⟩

/-- Witness for C3's amended statement at concrete inputs. -/
theorem C3_amended_witness :
    calculate_num_exercises .beginner { volume := 1, intensity := 1, complexity := 1 } =
      pyInt ((weeklyBase .beginner : ℚ) *
        (Progression.mk 1 1 1).volume) :=
  C3_amended_exercise_count.1 .beginner (Progression.mk 1 1 1)
